import Mathlib

/-!
Verification of the OCI Translator service (`main.py`).

The development shallowly embeds the Python code: strings are Lean
`String`s, the two module-level dictionaries become association lists
(Python dicts preserve insertion order and these are never mutated),
and the request handler becomes a pure function from the request and
the outcome of the single model invocation to the HTTP response.

CPython's `str.lower` / `str.capitalize` apply full-Unicode case
mappings. The development carries two casing models. `pyLower` /
`pyCapitalize` are their ASCII restriction, exact whenever every
character involved is ASCII (all table strings are, as are the inputs
of the handler-level claims); the handler and table theorems are
stated over it. `pyLowerFull` / `pyCapitalizeFull` extend the mapping
with U+212A KELVIN SIGN — the single code point in all of Unicode
outside ASCII whose simple lowercase is an ASCII character — which is
exactly what resolution against the ASCII-only table can be sensitive
to; the resolver-image analysis is stated over this full model,
because on non-ASCII input the two models genuinely disagree.
-/

/-- Python `s.lower()` restricted to its ASCII case mapping, character
by character; exact on ASCII strings only (see `pyLowerFull` for the
Unicode-faithful extension). -/
def pyLower (s : String) : String :=
  ⟨s.data.map Char.toLower⟩

/-- Python `s.capitalize()` restricted to its ASCII casing: first
character upper-cased, the remaining characters lower-cased, the empty
string unchanged; exact on ASCII strings only (see `pyCapitalizeFull`
for the Unicode-faithful extension). -/
def pyCapitalize (s : String) : String :=
  match s.data with
  | [] => ""
  | c :: cs => ⟨Char.toUpper c :: cs.map Char.toLower⟩

/-- Python whitespace test used by `str.strip()` (ASCII range). -/
def pyIsSpace (c : Char) : Bool :=
  c == ' ' || c == '\t' || c == '\n' || c == '\r' || c == '\x0b' || c == '\x0c'

/-- Python `s.strip()`: remove leading and trailing whitespace. -/
def pyStrip (s : String) : String :=
  ⟨((s.data.dropWhile pyIsSpace).reverse.dropWhile pyIsSpace).reverse⟩

/-- Python `s.startswith(p)`. -/
def pyStartsWith (s p : String) : Bool :=
  s.data.take p.data.length == p.data

/-- Python `s.find(c)` for a single-character needle: index of the first
occurrence, or `-1` when absent. -/
def pyFind (s : String) (c : Char) : Int :=
  match s.data.findIdx? (· == c) with
  | some i => (i : Int)
  | none => -1

/-- Python `s[a:b]` for non-negative indices (clamped to the length). -/
def pySlice (s : String) (a b : Nat) : String :=
  ⟨(s.data.take b).drop a⟩

/-- Python `s[n:]` for a non-negative index. -/
def pyDrop (s : String) (n : Nat) : String :=
  ⟨s.data.drop n⟩

/-- `main.py` lines 14-25: the `LANGUAGE_CODES` dict, short code to
display name, in source order. -/
def LANGUAGE_CODES : List (String × String) :=
  [("ar", "Arabic"), ("zh", "Chinese"), ("en", "English"), ("fr", "French"),
   ("de", "German"), ("it", "Italian"), ("ja", "Japanese"), ("ko", "Korean"),
   ("pt", "Portuguese"), ("es", "Spanish")]

/-- `main.py` line 28: `LANGUAGE_NAMES = {v.lower(): k for k, v in
LANGUAGE_CODES.items()}`, the reverse map from lower-cased display name
to short code. -/
def LANGUAGE_NAMES : List (String × String) :=
  LANGUAGE_CODES.map (fun kv => (pyLower kv.2, kv.1))

/-- Outcome of `TranslationRequest.get_language_name`: a resolved name,
the `ValueError` of line 74, or the `KeyError` a failing dict index on
line 70 would raise. -/
inductive ResolveResult where
  | ok (name : String)
  | valueError (identifier : String)
  | keyError (key : String)
  deriving DecidableEq, Repr

/-- `main.py` lines 65-74, `TranslationRequest.get_language_name`:
branch 1 tests `code_or_name.lower()` against the lower-cased display
names; branch 2 tests membership in `LANGUAGE_NAMES` and then indexes
`LANGUAGE_CODES` with the same key (a `KeyError` if that key is not a
code); branch 3 tests exact-case membership in `LANGUAGE_CODES`;
otherwise a `ValueError` is raised. -/
def get_language_name (code_or_name : String) : ResolveResult :=
  if (LANGUAGE_CODES.map (fun kv => pyLower kv.2)).contains (pyLower code_or_name) then
    ResolveResult.ok (pyCapitalize code_or_name)
  else if (LANGUAGE_NAMES.lookup (pyLower code_or_name)).isSome then
    match LANGUAGE_CODES.lookup (pyLower code_or_name) with
    | some name => ResolveResult.ok (pyCapitalize name)
    | none => ResolveResult.keyError (pyLower code_or_name)
  else
    match LANGUAGE_CODES.lookup code_or_name with
    | some name => ResolveResult.ok (pyCapitalize name)
    | none => ResolveResult.valueError code_or_name

/-- The resolver's observable behavior, for comparison with
`get_language_name`: branch 2 of the source is unreachable (its test is
the same as branch 1's), so resolution is the case-insensitive
display-name match returning the capitalized identifier, else the
exact-case code lookup, else failure. -/
def resolveAmended (identifier : String) : ResolveResult :=
  if (LANGUAGE_CODES.map (fun kv => pyLower kv.2)).contains (pyLower identifier) then
    ResolveResult.ok (pyCapitalize identifier)
  else
    match LANGUAGE_CODES.lookup identifier with
    | some name => ResolveResult.ok (pyCapitalize name)
    | none => ResolveResult.valueError identifier

/-- `main.py` lines 60-63: the request body. -/
structure TranslationRequest where
  text : String
  source_language : String
  target_language : String
  deriving DecidableEq, Repr

/-- `main.py` lines 77-80: the success response body. -/
structure TranslationResponse where
  translated_text : String
  source_language : String
  target_language : String
  deriving DecidableEq, Repr

/-- Outcome of the single `chain.ainvoke` call of lines 93-99: either a
message whose `content` is the model reply, or an exception whose
stringified form is `message` (the provider is opaque; the handler only
sees one of these two outcomes). -/
inductive ModelOutcome where
  | reply (content : String)
  | exception (message : String)
  deriving DecidableEq, Repr

/-- The `detail` payload of an `HTTPException`: a plain string (lines 90
and 130) or the structured dict of lines 113-117. -/
inductive Detail where
  | str (s : String)
  | structured (message source_language target_language : String)
  deriving DecidableEq, Repr

/-- Result of the `/translate` handler: HTTP 200 with a
`TranslationResponse`, or an `HTTPException` with a status code and a
detail payload. -/
inductive HandlerResult where
  | ok (response : TranslationResponse)
  | httpError (status : Nat) (detail : Detail)
  deriving DecidableEq, Repr

/-- `main.py` lines 104-109: the error reason extracted from a reply
that starts with the sentinel. When both `[` and `]` occur, the slice
between the first `[` and the first `]`; otherwise the reply with the
6-character `ERROR:` prefix removed, stripped. -/
def extract_error_message (content : String) : String :=
  let error_start := pyFind content '['
  let error_end := pyFind content ']'
  if error_start != -1 && error_end != -1 then
    pySlice content (error_start + 1).toNat error_end.toNat
  else
    pyStrip (pyDrop content 6)

/-- Classification of a model reply (`main.py` lines 101-118): a reply
starting with `ERROR:` is a semantic error carrying the extracted
reason; any other reply is a successful translation. -/
inductive TranslationOutcome where
  | success (text : String)
  | semanticError (reason : String)
  deriving DecidableEq, Repr

/-- `main.py` line 102 plus the extraction of lines 104-109. -/
def classify (content : String) : TranslationOutcome :=
  if pyStartsWith content "ERROR:" then
    TranslationOutcome.semanticError (extract_error_message content)
  else
    TranslationOutcome.success content

/-- The `ValueError` message of `main.py` line 74, which line 90 turns
into the 400 detail string. -/
def unsupported_message (identifier : String) : String :=
  "Unsupported language: " ++ identifier

/-- Python `str(KeyError(k))`, the 500 detail a `KeyError` escaping the
resolver would produce through line 130. -/
def key_error_message (k : String) : String :=
  "\x27" ++ k ++ "\x27"

/-- `main.py` lines 82-130, the `/translate` handler: resolve the source
language then the target language (a `ValueError` becomes a 400 whose
detail is the error string, any other exception a 500); invoke the model
once (an exception becomes a 500 with the stringified exception);
classify the reply (a sentinel reply becomes a 400 with the structured
detail of lines 113-117, any other reply the 200 response of lines
121-125 carrying the reply verbatim). -/
def translate_text (request : TranslationRequest) (model : ModelOutcome) : HandlerResult :=
  match get_language_name request.source_language with
  | ResolveResult.valueError i => HandlerResult.httpError 400 (Detail.str (unsupported_message i))
  | ResolveResult.keyError k => HandlerResult.httpError 500 (Detail.str (key_error_message k))
  | ResolveResult.ok source_lang =>
    match get_language_name request.target_language with
    | ResolveResult.valueError i => HandlerResult.httpError 400 (Detail.str (unsupported_message i))
    | ResolveResult.keyError k => HandlerResult.httpError 500 (Detail.str (key_error_message k))
    | ResolveResult.ok target_lang =>
      match model with
      | ModelOutcome.exception e => HandlerResult.httpError 500 (Detail.str e)
      | ModelOutcome.reply content =>
        match classify content with
        | TranslationOutcome.semanticError reason =>
          HandlerResult.httpError 400 (Detail.structured reason source_lang target_lang)
        | TranslationOutcome.success text =>
          HandlerResult.ok ⟨text, source_lang, target_lang⟩

/-- CPython's `str.lower` applies the Unicode simple lowercase mapping
to every character, not only to ASCII. Beyond the basic latin letters,
exactly one code point in all of Unicode has a single ASCII character
as its simple lowercase: U+212A KELVIN SIGN, whose lowercase is U+006B
`k` (UnicodeData.txt: `212A;KELVIN SIGN;Lu;0;L;004B;;;;N;;;;006B;`).
This function is therefore CPython's mapping on every character whose
image under it is ASCII; the remaining code points (whose mappings stay
outside ASCII and so can never reach the ASCII-only language table) are
left unchanged. -/
def pyLowerCharFull (c : Char) : Char :=
  if c = '\u212A' then 'k' else Char.toLower c

/-- CPython's `str.lower` under the full Unicode mapping of
`pyLowerCharFull`; on ASCII strings it coincides with `pyLower`. -/
def pyLowerFull (s : String) : String :=
  ⟨s.data.map pyLowerCharFull⟩

/-- The Unicode simple titlecase mapping CPython's `str.capitalize`
applies to the first character: U+212A KELVIN SIGN has no titlecase or
uppercase mapping in UnicodeData.txt and so titlecases to itself, while
the basic latin letters titlecase as `Char.toUpper`. -/
def pyTitleCharFull (c : Char) : Char :=
  if c = '\u212A' then c else Char.toUpper c

/-- CPython's `str.capitalize` under the full Unicode mapping:
titlecase the first character, lowercase the rest; on ASCII strings it
coincides with `pyCapitalize`. -/
def pyCapitalizeFull (s : String) : String :=
  match s.data with
  | [] => ""
  | c :: cs => ⟨pyTitleCharFull c :: cs.map pyLowerCharFull⟩

/-- `main.py` line 28 under the full Unicode casing model. -/
def LANGUAGE_NAMES_full : List (String × String) :=
  LANGUAGE_CODES.map (fun kv => (pyLowerFull kv.2, kv.1))

/-- `main.py` lines 65-74 under the full Unicode casing model: the same
four branches as `get_language_name`, with Python's casing no longer
restricted to its ASCII fragment. -/
def get_language_name_full (code_or_name : String) : ResolveResult :=
  if (LANGUAGE_CODES.map (fun kv => pyLowerFull kv.2)).contains (pyLowerFull code_or_name) then
    ResolveResult.ok (pyCapitalizeFull code_or_name)
  else if (LANGUAGE_NAMES_full.lookup (pyLowerFull code_or_name)).isSome then
    match LANGUAGE_CODES.lookup (pyLowerFull code_or_name) with
    | some name => ResolveResult.ok (pyCapitalizeFull name)
    | none => ResolveResult.keyError (pyLowerFull code_or_name)
  else
    match LANGUAGE_CODES.lookup code_or_name with
    | some name => ResolveResult.ok (pyCapitalizeFull name)
    | none => ResolveResult.valueError code_or_name

example : classify "ERROR: [reason text]" = TranslationOutcome.semanticError "reason text" := by
  decide
example : classify "ERROR: reason text" = TranslationOutcome.semanticError "reason text" := by
  decide
example : classify "ERROR: ]x[y" = TranslationOutcome.semanticError "" := by decide
example : classify "Hola" = TranslationOutcome.success "Hola" := by decide
example :
    translate_text ⟨"Hello", "en", "es"⟩ (ModelOutcome.reply "Hola") =
      HandlerResult.ok ⟨"Hola", "English", "Spanish"⟩ := by decide
example :
    translate_text ⟨"Hello", "en", "xx"⟩ (ModelOutcome.reply "Hola") =
      HandlerResult.httpError 400 (Detail.str "Unsupported language: xx") := by decide
example :
    translate_text ⟨"Hello", "en", "es"⟩
        (ModelOutcome.reply "ERROR: [The input contains no translatable content.]") =
      HandlerResult.httpError 400
        (Detail.structured "The input contains no translatable content." "English" "Spanish") := by
  decide

/-! ### Helper lemmas -/

/-- Packing a valid scalar value and unpacking it is the identity. -/
theorem char_toNat_ofNat (n : Nat) (h : n < 55296) : (Char.ofNat n).toNat = n := by
  have hv : n.isValidChar := Or.inl h
  unfold Char.ofNat
  rw [dif_pos hv]
  rfl

/-- ASCII upper-casing is unchanged by prior lower-casing. -/
theorem toUpper_toLower (c : Char) : Char.toUpper (Char.toLower c) = Char.toUpper c := by
  by_cases h : 65 ≤ c.toNat ∧ c.toNat ≤ 90
  · have h1 : (Char.ofNat (c.toNat + 32)).toNat = c.toNat + 32 :=
      char_toNat_ofNat _ (by omega)
    simp only [Char.toLower, ge_iff_le]
    rw [if_pos h]
    simp only [Char.toUpper, h1, ge_iff_le]
    rw [if_pos ⟨by omega, by omega⟩, if_neg (by omega)]
    rw [Nat.add_sub_cancel, Char.ofNat_toNat]
  · simp only [Char.toLower, ge_iff_le]
    rw [if_neg h]

/-- Two strings with the same lower-case form have the same
`capitalize` form. -/
theorem pyCapitalize_congr {a b : String} (h : pyLower a = pyLower b) :
    pyCapitalize a = pyCapitalize b := by
  have hd : a.data.map Char.toLower = b.data.map Char.toLower := by
    simpa [pyLower] using congrArg String.data h
  unfold pyCapitalize
  cases ha : a.data with
  | nil =>
    cases hb : b.data with
    | nil => rfl
    | cons d ds => rw [ha, hb] at hd; simp at hd
  | cons c cs =>
    cases hb : b.data with
    | nil => rw [ha, hb] at hd; simp at hd
    | cons d ds =>
      rw [ha, hb] at hd
      simp only [List.map_cons, List.cons.injEq] at hd
      obtain ⟨h1, h2⟩ := hd
      have hu : Char.toUpper c = Char.toUpper d := by
        rw [← toUpper_toLower c, ← toUpper_toLower d, h1]
      show String.mk (Char.toUpper c :: cs.map Char.toLower) =
        String.mk (Char.toUpper d :: ds.map Char.toLower)
      rw [hu, h2]

/-- A key has a binding in an association list exactly when it occurs
among the keys. -/
theorem lookup_isSome_eq_contains (l : List (String × String)) (k : String) :
    (l.lookup k).isSome = (l.map Prod.fst).contains k := by
  induction l with
  | nil => rfl
  | cons kv t ih =>
    obtain ⟨a, b⟩ := kv
    simp only [List.lookup, List.map, List.contains_cons]
    cases h : k == a <;> simp [h, ih]

/-- A value found by `lookup` occurs among the values. -/
theorem lookup_mem_values (l : List (String × String)) (k v : String)
    (h : l.lookup k = some v) : v ∈ l.map Prod.snd := by
  induction l with
  | nil => simp [List.lookup] at h
  | cons kv t ih =>
    obtain ⟨a, b⟩ := kv
    simp only [List.lookup] at h
    cases hk : k == a
    · rw [hk] at h
      exact List.mem_cons_of_mem _ (ih h)
    · rw [hk] at h
      injection h with h
      exact h ▸ List.mem_cons_self _ _

/-- The keys of the reverse map are the lower-cased display names. -/
theorem names_keys :
    LANGUAGE_NAMES.map Prod.fst = LANGUAGE_CODES.map (fun kv => pyLower kv.2) := by
  decide

/-- The test of branch 2 of `get_language_name` coincides with the test
of branch 1: branch 2 is dead code. -/
theorem names_lookup_isSome (k : String) :
    (LANGUAGE_NAMES.lookup k).isSome =
      (LANGUAGE_CODES.map (fun kv => pyLower kv.2)).contains k := by
  rw [lookup_isSome_eq_contains, names_keys]

/-- Every stored display name is fixed by `capitalize`. -/
theorem capitalize_fixed : ∀ n ∈ LANGUAGE_CODES.map Prod.snd, pyCapitalize n = n := by
  decide

/-! ### Claim theorems -/

/-- C1, counterexample: the claim predicts that an identifier whose
lower-case form is a known short code resolves via its step 2 to the
mapped display name; in the code, `"EN"` and `"Es"` fail with
`ValueError` (branch 2 of `get_language_name` tests the reverse map of
lower-cased display names, not the short codes). -/
theorem C1_counterexample :
    get_language_name "EN" = ResolveResult.valueError "EN" ∧
    get_language_name "EN" ≠ ResolveResult.ok "English" ∧
    get_language_name "Es" = ResolveResult.valueError "Es" ∧
    get_language_name "Es" ≠ ResolveResult.ok "Spanish" := by
  decide

/-- C1, amended: resolution order is (1) if `identifier.lower()` equals
the lower-case of a known display name, return the identifier
capitalized; (2) else if `identifier.lower()` is a key of the reverse
map of lower-cased display names — the same condition as step 1, so
this branch is unreachable; (3) else if the identifier with exact case
is a known short code, return the mapped name capitalized; (4) else
fail. Hence `get_language_name` coincides with `resolveAmended`, and an
identifier whose lower-case form is a short code resolves only when it
is exactly that code. -/
theorem C1_resolution_order (identifier : String) :
    get_language_name identifier = resolveAmended identifier := by
  unfold get_language_name resolveAmended
  by_cases h1 :
      ((LANGUAGE_CODES.map (fun kv => pyLower kv.2)).contains (pyLower identifier)) = true
  · rw [if_pos h1, if_pos h1]
  · rw [if_neg h1, if_neg h1]
    have h2 : ¬ ((LANGUAGE_NAMES.lookup (pyLower identifier)).isSome = true) := by
      rw [names_lookup_isSome]
      exact h1
    rw [if_neg h2]

/-- C2: for every model reply starting with `ERROR:`, when both `[` and
`]` occur the extracted reason is the slice between the first `[` and
the first `]`; when one is absent it is the reply with the 6-character
prefix removed, stripped; in particular `"ERROR: [reason text]"` and
`"ERROR: reason text"` both classify as a semantic error with reason
`"reason text"`. -/
theorem C2_sentinel_extraction (content : String)
    (h : pyStartsWith content "ERROR:" = true) :
    (∀ i j : Nat, pyFind content '[' = (i : Int) → pyFind content ']' = (j : Int) →
      classify content = TranslationOutcome.semanticError (pySlice content (i + 1) j)) ∧
    (pyFind content '[' = -1 ∨ pyFind content ']' = -1 →
      classify content = TranslationOutcome.semanticError (pyStrip (pyDrop content 6))) ∧
    classify "ERROR: [reason text]" = TranslationOutcome.semanticError "reason text" ∧
    classify "ERROR: reason text" = TranslationOutcome.semanticError "reason text" := by
  refine ⟨?_, ?_, by decide, by decide⟩
  · intro i j hi hj
    unfold classify extract_error_message
    rw [if_pos h, hi, hj]
    rw [if_pos (by simp)]
    have h1 : ((i : Int) + 1).toNat = i + 1 := by omega
    have h2 : ((j : Int)).toNat = j := Int.toNat_natCast j
    rw [h1, h2]
  · intro hcase
    unfold classify extract_error_message
    rw [if_pos h]
    rcases hcase with hc | hc <;> rw [hc] <;> rw [if_neg (by simp)]

/-- C2 witness at the bracketed example. -/
theorem C2_sentinel_extraction_witness :
    classify "ERROR: [reason text]" = TranslationOutcome.semanticError "reason text" := by
  have h := (C2_sentinel_extraction "ERROR: [reason text]" (by decide)).1 7 19
    (by decide) (by decide)
  exact h.trans (by decide)

/-- C3: when both language identifiers resolve and the model reply does
not start with `ERROR:`, the handler returns HTTP 200 carrying the
reply verbatim as `translated_text` together with the two resolved
canonical names. -/
theorem C3_success_identity (request : TranslationRequest) (content s t : String)
    (hs : get_language_name request.source_language = ResolveResult.ok s)
    (ht : get_language_name request.target_language = ResolveResult.ok t)
    (hn : pyStartsWith content "ERROR:" = false) :
    translate_text request (ModelOutcome.reply content) =
      HandlerResult.ok ⟨content, s, t⟩ := by
  unfold translate_text
  rw [hs, ht]
  simp [classify, hn]

/-- C3 witness: `{text: Hello, en, es}` with reply `Hola`. -/
theorem C3_success_identity_witness :
    translate_text ⟨"Hello", "en", "es"⟩ (ModelOutcome.reply "Hola") =
      HandlerResult.ok ⟨"Hola", "English", "Spanish"⟩ :=
  C3_success_identity ⟨"Hello", "en", "es"⟩ "Hola" "English" "Spanish"
    (by decide) (by decide) (by decide)

/-- C4: when both language identifiers resolve and the model reply
starts with `ERROR:`, the handler returns HTTP 400 (a client error)
whose structured detail carries the extracted reason and the two
resolved canonical names; in particular the reply
`"ERROR: [The input contains no translatable content.]"` yields 400
with message `"The input contains no translatable content."`. -/
theorem C4_semantic_error_mapping (request : TranslationRequest) (content s t : String)
    (hs : get_language_name request.source_language = ResolveResult.ok s)
    (ht : get_language_name request.target_language = ResolveResult.ok t)
    (he : pyStartsWith content "ERROR:" = true) :
    translate_text request (ModelOutcome.reply content) =
      HandlerResult.httpError 400
        (Detail.structured (extract_error_message content) s t) ∧
    translate_text ⟨"Hello", "en", "es"⟩
        (ModelOutcome.reply "ERROR: [The input contains no translatable content.]") =
      HandlerResult.httpError 400
        (Detail.structured "The input contains no translatable content."
          "English" "Spanish") := by
  refine ⟨?_, by decide⟩
  unfold translate_text
  rw [hs, ht]
  simp [classify, he]

/-- C4 witness at the end-to-end scenario 3 input. -/
theorem C4_semantic_error_mapping_witness :
    translate_text ⟨"Hello", "en", "es"⟩
        (ModelOutcome.reply "ERROR: [The input contains no translatable content.]") =
      HandlerResult.httpError 400
        (Detail.structured "The input contains no translatable content."
          "English" "Spanish") := by
  have h := C4_semantic_error_mapping ⟨"Hello", "en", "es"⟩
    "ERROR: [The input contains no translatable content.]" "English" "Spanish"
    (by decide) (by decide) (by decide)
  exact h.1.trans (by decide)

/-- C5: an identifier matching neither a display name case-insensitively
nor a short code as exact dict key makes the resolver raise, and the
handler turns that into HTTP 400 whose string detail names the
identifier; the model outcome is arbitrary because the provider is
never invoked. -/
theorem C5_unsupported_language (identifier src text s : String) (model : ModelOutcome)
    (h1 : ((LANGUAGE_CODES.map (fun kv => pyLower kv.2)).contains (pyLower identifier)) = false)
    (h2 : LANGUAGE_CODES.lookup identifier = none)
    (hs : get_language_name src = ResolveResult.ok s) :
    get_language_name identifier = ResolveResult.valueError identifier ∧
    translate_text ⟨text, src, identifier⟩ model =
      HandlerResult.httpError 400
        (Detail.str ("Unsupported language: " ++ identifier)) := by
  have hres : get_language_name identifier = ResolveResult.valueError identifier := by
    unfold get_language_name
    rw [if_neg (by rw [h1]; simp)]
    rw [if_neg (by rw [names_lookup_isSome, h1]; simp)]
    rw [h2]
  refine ⟨hres, ?_⟩
  unfold translate_text
  have hsrc : get_language_name (TranslationRequest.mk text src identifier).source_language =
      ResolveResult.ok s := hs
  rw [hsrc]
  have htgt : get_language_name (TranslationRequest.mk text src identifier).target_language =
      ResolveResult.valueError identifier := hres
  rw [htgt]
  rfl

/-- C5 witness: target `"xx"` yields 400 naming `"xx"`. -/
theorem C5_unsupported_language_witness :
    translate_text ⟨"Hello", "en", "xx"⟩ (ModelOutcome.reply "Hola") =
      HandlerResult.httpError 400 (Detail.str ("Unsupported language: " ++ "xx")) :=
  (C5_unsupported_language "xx" "en" "Hello" "English" (ModelOutcome.reply "Hola")
    (by decide) (by decide) (by decide)).2

/-- C6: when both language identifiers resolve and the provider call
fails with any exception, the handler returns HTTP 500 whose detail is
the stringified exception, and no `TranslationResponse` is constructed
(the handler sees the single invocation's outcome once; no retry
exists). -/
theorem C6_provider_failure (request : TranslationRequest) (e s t : String)
    (hs : get_language_name request.source_language = ResolveResult.ok s)
    (ht : get_language_name request.target_language = ResolveResult.ok t) :
    translate_text request (ModelOutcome.exception e) =
      HandlerResult.httpError 500 (Detail.str e) ∧
    ∀ response : TranslationResponse,
      translate_text request (ModelOutcome.exception e) ≠ HandlerResult.ok response := by
  have h : translate_text request (ModelOutcome.exception e) =
      HandlerResult.httpError 500 (Detail.str e) := by
    unfold translate_text
    rw [hs, ht]
  exact ⟨h, fun response hr => by rw [h] at hr; exact HandlerResult.noConfusion hr⟩

/-- C6 witness at a concrete transport error. -/
theorem C6_provider_failure_witness :
    translate_text ⟨"Hello", "en", "es"⟩ (ModelOutcome.exception "connection timed out") =
      HandlerResult.httpError 500 (Detail.str "connection timed out") :=
  (C6_provider_failure ⟨"Hello", "en", "es"⟩ "connection timed out" "English" "Spanish"
    (by decide) (by decide)).1

/-- C7: for each of the ten table entries, resolving the short code, the
display name, and the lower-cased display name all succeed with the
canonical display name. -/
theorem C7_code_name_equivalence :
    ∀ kv ∈ LANGUAGE_CODES,
      get_language_name kv.1 = ResolveResult.ok kv.2 ∧
      get_language_name kv.2 = ResolveResult.ok kv.2 ∧
      get_language_name (pyLower kv.2) = ResolveResult.ok kv.2 := by
  decide

/-- C7 witness at the `("es", "Spanish")` entry. -/
theorem C7_code_name_equivalence_witness :
    get_language_name "es" = ResolveResult.ok "Spanish" ∧
    get_language_name "Spanish" = ResolveResult.ok "Spanish" ∧
    get_language_name (pyLower "Spanish") = ResolveResult.ok "Spanish" :=
  C7_code_name_equivalence ("es", "Spanish") (by decide)

/-- C8: the table has exactly the ten codes ar, zh, en, fr, de, it, ja,
ko, pt, es; codes, names and reverse-map keys are each duplicate-free;
the reverse map sends each stored name's lower-case form back to its
code, and following a reverse-map entry through the forward map returns
the key one started from: the two directions are consistent inverses.
(Both tables are plain definitions, so no operation can modify them.) -/
theorem C8_table_inverse_invariants :
    LANGUAGE_CODES.map Prod.fst =
      ["ar", "zh", "en", "fr", "de", "it", "ja", "ko", "pt", "es"] ∧
    LANGUAGE_CODES.length = 10 ∧
    LANGUAGE_NAMES.length = 10 ∧
    (LANGUAGE_CODES.map Prod.fst).Nodup ∧
    (LANGUAGE_CODES.map Prod.snd).Nodup ∧
    (LANGUAGE_NAMES.map Prod.fst).Nodup ∧
    (∀ kv ∈ LANGUAGE_CODES, LANGUAGE_NAMES.lookup (pyLower kv.2) = some kv.1) ∧
    (∀ nk ∈ LANGUAGE_NAMES, (LANGUAGE_CODES.lookup nk.2).map pyLower = some nk.1) := by
  decide

/-- C8 witness: the round trip at the `("es", "Spanish")` entry. -/
theorem C8_table_inverse_invariants_witness :
    LANGUAGE_NAMES.lookup (pyLower "Spanish") = some "es" :=
  C8_table_inverse_invariants.2.2.2.2.2.2.1 ("es", "Spanish") (by decide)

/-- Under the ASCII casing model the resolver's successes all land in
the stored display names: in the case-insensitive branch the
capitalized identifier coincides with the stored name, because ASCII
capitalization depends only on the lower-case form and every stored
name is fixed by `capitalize`. -/
theorem resolved_name_canonical_ascii_model (identifier r : String)
    (h : get_language_name identifier = ResolveResult.ok r) :
    r ∈ LANGUAGE_CODES.map Prod.snd := by
  unfold get_language_name at h
  by_cases h1 :
      ((LANGUAGE_CODES.map (fun kv => pyLower kv.2)).contains (pyLower identifier)) = true
  · rw [if_pos h1] at h
    injection h with h
    have hmem : pyLower identifier ∈ LANGUAGE_CODES.map (fun kv => pyLower kv.2) := by
      rw [← List.elem_iff]
      simpa [List.contains] using h1
    rcases List.mem_map.mp hmem with ⟨kv, hkv, hlow⟩
    have h2 : kv.2 ∈ LANGUAGE_CODES.map Prod.snd := List.mem_map_of_mem Prod.snd hkv
    have hr : r = kv.2 := by
      rw [← h, pyCapitalize_congr hlow.symm, capitalize_fixed kv.2 h2]
    rw [hr]
    exact h2
  · rw [if_neg h1] at h
    rw [if_neg (by rw [names_lookup_isSome]; exact h1)] at h
    cases hl : LANGUAGE_CODES.lookup identifier with
    | none => rw [hl] at h; exact absurd h (by simp)
    | some name =>
      rw [hl] at h
      injection h with h
      have h2 : name ∈ LANGUAGE_CODES.map Prod.snd := lookup_mem_values _ _ _ hl
      rw [← h, capitalize_fixed name h2]
      exact h2

/-- On ASCII strings the full lower-case mapping agrees with the ASCII
one: the U+212A special case never fires. -/
theorem pyLowerFull_ascii (s : String) (h : ∀ c ∈ s.data, c.toNat < 128) :
    pyLowerFull s = pyLower s := by
  unfold pyLowerFull pyLower
  congr 1
  apply List.map_congr_left
  intro c hc
  unfold pyLowerCharFull
  rw [if_neg]
  intro hk
  have hlt := h c hc
  rw [hk] at hlt
  exact absurd hlt (by decide)

/-- On ASCII strings the full `capitalize` agrees with the ASCII one. -/
theorem pyCapitalizeFull_ascii (s : String) (h : ∀ c ∈ s.data, c.toNat < 128) :
    pyCapitalizeFull s = pyCapitalize s := by
  unfold pyCapitalizeFull pyCapitalize
  cases hs : s.data with
  | nil => rfl
  | cons c cs =>
    have hc : c.toNat < 128 := h c (hs ▸ List.mem_cons_self _ _)
    have h1 : pyTitleCharFull c = Char.toUpper c := by
      unfold pyTitleCharFull
      rw [if_neg]
      intro hk
      rw [hk] at hc
      exact absurd hc (by decide)
    have h2 : cs.map pyLowerCharFull = cs.map Char.toLower := by
      apply List.map_congr_left
      intro x hx
      have hxlt : x.toNat < 128 := h x (hs ▸ List.mem_cons_of_mem _ hx)
      unfold pyLowerCharFull
      rw [if_neg]
      intro hk
      rw [hk] at hxlt
      exact absurd hxlt (by decide)
    show String.mk (pyTitleCharFull c :: cs.map pyLowerCharFull) =
      String.mk (Char.toUpper c :: cs.map Char.toLower)
    rw [h1, h2]

/-- The tables are ASCII, so both casing models build them alike. -/
theorem full_model_table :
    LANGUAGE_CODES.map (fun kv => pyLowerFull kv.2) =
      LANGUAGE_CODES.map (fun kv => pyLower kv.2) ∧
    LANGUAGE_NAMES_full = LANGUAGE_NAMES := by decide

/-- On the stored display names the full `capitalize` equals the ASCII
one. -/
theorem capitalizeFull_on_values :
    ∀ n ∈ LANGUAGE_CODES.map Prod.snd, pyCapitalizeFull n = pyCapitalize n := by decide

/-- On ASCII identifiers the Unicode-faithful resolver coincides with
the ASCII-model resolver. -/
theorem get_language_name_full_ascii (identifier : String)
    (h : ∀ c ∈ identifier.data, c.toNat < 128) :
    get_language_name_full identifier = get_language_name identifier := by
  unfold get_language_name_full get_language_name
  rw [full_model_table.1, full_model_table.2, pyLowerFull_ascii identifier h,
    pyCapitalizeFull_ascii identifier h]
  by_cases h1 :
      ((LANGUAGE_CODES.map (fun kv => pyLower kv.2)).contains (pyLower identifier)) = true
  · rw [if_pos h1, if_pos h1]
  · rw [if_neg h1, if_neg h1]
    by_cases h2 : ((LANGUAGE_NAMES.lookup (pyLower identifier)).isSome) = true
    · rw [if_pos h2, if_pos h2]
      cases hl : LANGUAGE_CODES.lookup (pyLower identifier) with
      | none => rfl
      | some name =>
        show ResolveResult.ok (pyCapitalizeFull name) = ResolveResult.ok (pyCapitalize name)
        rw [capitalizeFull_on_values name (lookup_mem_values _ _ _ hl)]
    · rw [if_neg h2, if_neg h2]
      cases hl : LANGUAGE_CODES.lookup identifier with
      | none => rfl
      | some name =>
        show ResolveResult.ok (pyCapitalizeFull name) = ResolveResult.ok (pyCapitalize name)
        rw [capitalizeFull_on_values name (lookup_mem_values _ _ _ hl)]

/-- C9, counterexample: under CPython's full-Unicode casing the
identifier `"\u212AOREAN"` (KELVIN SIGN followed by `OREAN`) lowers to
`"korean"`, so branch 1 fires and resolution succeeds — but it returns
the identifier capitalized, `"\u212Aorean"` (the Kelvin sign titlecases
to itself), which is not one of the ten stored display names. -/
theorem C9_counterexample :
    get_language_name_full "\u212AOREAN" = ResolveResult.ok "\u212Aorean" ∧
    "\u212Aorean" ∉ LANGUAGE_CODES.map Prod.snd := by decide

/-- C9, amended: whenever the resolver succeeds on an identifier made
of ASCII characters, its result is one of the ten stored display names
— on ASCII input the case-insensitive branch's capitalized identifier
coincides with the stored name, since every stored name is a single
word fixed by `capitalize`. Non-ASCII identifiers escape this: see the
Kelvin-sign counterexample. -/
theorem C9_resolved_name_canonical (identifier r : String)
    (hascii : ∀ c ∈ identifier.data, c.toNat < 128)
    (h : get_language_name_full identifier = ResolveResult.ok r) :
    r ∈ LANGUAGE_CODES.map Prod.snd := by
  rw [get_language_name_full_ascii identifier hascii] at h
  exact resolved_name_canonical_ascii_model identifier r h

/-- C9 witness: the ASCII identifier `"eNGLISH"` resolves to the stored
name `"English"`. -/
theorem C9_resolved_name_canonical_witness :
    "English" ∈ LANGUAGE_CODES.map Prod.snd ∧
    get_language_name_full "eNGLISH" = ResolveResult.ok "English" :=
  ⟨C9_resolved_name_canonical "eNGLISH" "English" (by decide) (by decide), by decide⟩

/-- C10: for a sentinel reply in which both brackets occur but the
first `]` precedes the first `[`, the bracket branch is still taken and
the extracted reason is empty — the slice from just past the first `[`
up to the earlier first `]` has nothing in it; concretely,
`"ERROR: ]x[y"` classifies as a semantic error with reason `""`. -/
theorem C10_reversed_brackets (content : String) (i j : Nat)
    (h : pyStartsWith content "ERROR:" = true)
    (hi : pyFind content '[' = (i : Int))
    (hj : pyFind content ']' = (j : Int))
    (hji : j < i) :
    classify content = TranslationOutcome.semanticError "" ∧
    classify "ERROR: ]x[y" = TranslationOutcome.semanticError "" := by
  refine ⟨?_, by decide⟩
  unfold classify extract_error_message
  rw [if_pos h, hi, hj]
  rw [if_pos (by simp)]
  have h1 : ((i : Int) + 1).toNat = i + 1 := by omega
  have h2 : ((j : Int)).toNat = j := Int.toNat_natCast j
  rw [h1, h2]
  have h3 : (content.data.take j).drop (i + 1) = [] := by
    apply List.drop_eq_nil_of_le
    rw [List.length_take]
    omega
  have h4 : pySlice content (i + 1) j = "" := by
    unfold pySlice
    rw [h3]
  rw [h4]

/-- C10 witness at `"ERROR: ]x[y"` (first `[` at index 9, first `]` at
index 7). -/
theorem C10_reversed_brackets_witness :
    classify "ERROR: ]x[y" = TranslationOutcome.semanticError "" :=
  (C10_reversed_brackets "ERROR: ]x[y" 9 7 (by decide) (by decide) (by decide)
    (by decide)).1
